import Mathlib

/-!
Verification of `app.py` from the baby-log repository.

The file shallowly embeds the program's pure core in Lean:

* the temp-file naming scheme of the voice handler (`log_baby`, lines 177-186):
  `secure_filename(f"{int(now.timestamp())}_{file.filename}")` joined under `/tmp`,
  including a faithful model of werkzeug's `secure_filename` for ASCII input
  (on POSIX: replace `/` by a space, split on whitespace and rejoin with `_`,
  delete every character outside `[A-Za-z0-9_.-]`, strip `.` and `_` from both ends);
* the background job `process_log_background` (lines 31-110) as a function of the
  oracle behaviours of its fallible steps (client construction, file read,
  classification call, form post), an initial file-system state, and the three
  string arguments; it returns the final file-system state, the trace of outbound
  form posts, and the exception (if any) escaping the job;
* the `/log-button` handler `log_button` (lines 128-162) and the `/log-baby`
  handler `log_baby` (lines 164-193), with `datetime.now()` passed in as data.

File systems are modelled extensionally as `String → Bool` (existence of a path).
Machine-level effects that cannot raise in the fragment exercised here (`print`,
and `os.remove` guarded by `os.path.exists`) are modelled as infallible.
-/

namespace BabyLog

/-! ### Characters, werkzeug `secure_filename` (ASCII fragment), and the temp path -/

/-- The ASCII whitespace characters of Python's `str.split()`. -/
def pyIsSpace (c : Char) : Bool :=
  c == ' ' || c == '\t' || c == '\n' || c == '\r' || c == '\x0b' || c == '\x0c'

/-- `filename.replace(os.sep, " ")` with POSIX `os.sep = "/"`, one character at a time. -/
def slashToSpace (c : Char) : Char := if c == '/' then ' ' else c

/-- Membership in werkzeug's kept-character class `[A-Za-z0-9_.-]`. -/
def allowedChar (c : Char) : Bool :=
  (65 ≤ c.toNat && c.toNat ≤ 90) || (97 ≤ c.toNat && c.toNat ≤ 122) ||
    (48 ≤ c.toNat && c.toNat ≤ 57) || c == '_' || c == '.' || c == '-'

/-- The characters removed by the final `.strip("._")`. -/
def stripChar (c : Char) : Bool := c == '.' || c == '_'

/-- ASCII decimal digit test (used to recover the timestamp from a sanitized name). -/
def isDigitB (c : Char) : Bool := 48 ≤ c.toNat && c.toNat ≤ 57

/-- Split a character list at every character satisfying `p`, keeping empty pieces
(the pieces of Python's `re`-free `str.split` before empty pieces are discarded). -/
def mySplit (p : Char → Bool) : List Char → List (List Char)
  | [] => [[]]
  | c :: rest =>
    if p c then [] :: mySplit p rest
    else (mySplit p rest).modifyHead (fun x => c :: x)

/-- Python's `str.split()` discards empty pieces. -/
def filterNonEmpty (ps : List (List Char)) : List (List Char) :=
  ps.filter (fun x => !x.isEmpty)

/-- `"_".join(pieces)`. -/
def joinUnderscore : List (List Char) → List Char
  | [] => []
  | [x] => x
  | x :: y :: ys => x ++ '_' :: joinUnderscore (y :: ys)

/-- Left half of `.strip("._")`. -/
def lstrip (l : List Char) : List Char := l.dropWhile stripChar

/-- Right half of `.strip("._")`. -/
def rstrip (l : List Char) : List Char := (l.reverse.dropWhile stripChar).reverse

/-- werkzeug's `secure_filename`, restricted to ASCII input (for ASCII strings the
initial NFKD-normalize/ASCII-encode round trip is the identity; POSIX, so
`os.path.altsep` is `None` and the Windows device-name branch is dead). -/
def secure_filename (l : List Char) : List Char :=
  rstrip (lstrip (List.filter allowedChar
    (joinUnderscore (filterNonEmpty (mySplit pyIsSpace (l.map slashToSpace))))))

/-- The ASCII digit character of a value `d < 10`. -/
def digitChar (d : Nat) : Char := Char.ofNat (48 + d)

/-- Numeric value of an ASCII digit character. -/
def charToDigit (c : Char) : Nat := c.toNat - 48

/-- Decimal rendering of `n`, most significant digit first, with explicit fuel
(structural recursion; `fuel ≥ n` is enough since `n / 10 < n` for `n ≠ 0`). -/
def natCharsAux : Nat → Nat → List Char
  | 0, _ => []
  | fuel + 1, n =>
    if n = 0 then [] else natCharsAux fuel (n / 10) ++ [digitChar (n % 10)]

/-- Python's `f"{int(now.timestamp())}"` for a non-negative timestamp: the usual
decimal rendering, with `0` rendered as `"0"`. -/
def natChars (n : Nat) : List Char := if n = 0 then ['0'] else natCharsAux n n

/-- Decimal value of a digit string (left inverse of `natChars`). -/
def valOf (l : List Char) : Nat := l.foldl (fun acc c => 10 * acc + charToDigit c) 0

/-- The temp path of a voice submission (app.py lines 184-185):
`os.path.join("/tmp", secure_filename(f"{int(now.timestamp())}_{file.filename}"))`.
`secure_filename` never yields a string containing or starting with `/`, so the
join is plain concatenation. -/
def savePath (ts : Nat) (filename : List Char) : List Char :=
  "/tmp/".toList ++ secure_filename (natChars ts ++ '_' :: filename)

/-- `savePath` on Lean strings. -/
def savePathStr (ts : Nat) (filename : String) : String :=
  ⟨savePath ts filename.toList⟩

/-! ### Configuration constants (app.py lines 16-27) -/

/-- The Google Form entry-id mapping `FORM_FIELDS`. -/
structure FormFields where
  date : String
  time : String
  log_type : String
  transcript : String
deriving DecidableEq

def FORM_FIELDS : FormFields :=
  ⟨"entry.1823354629", "entry.1109844519", "entry.707765665", "entry.1028845639"⟩

/-- The form URL posted to: `os.environ.get("GOOGLE_FORM_URL", <literal>)`, modelled
with the environment variable unset, i.e. the fixed literal default. -/
def GOOGLE_FORM_URL : String :=
  "https://docs.google.com/forms/u/0/d/e/1FAIpQLSdozkwvFLM9JeBN2HOEZ8G3CANmiMj8vVYBU0CDvn3MNgrBag/formResponse"

/-- The taxonomy enumerated in the classification prompt (app.py lines 50-57). -/
def taxonomy : List String :=
  ["Breastfeeding Left", "Breastfeeding Right", "Breastfeeding Pause",
   "Breastfeeding Unpause", "Nappy Change", "Start Burping", "Stop Burping",
   "General Baby Log"]

/-! ### Dictionaries (JSON payloads and the parsed classification result) -/

/-- Lookup in a string-valued JSON object, modelled as an association list. -/
def jsonLookup (d : List (String × String)) (k : String) : Option String :=
  (d.find? (fun p => p.1 == k)).map (fun p => p.2)

/-- Python's `dict.get(k, dflt)`. -/
def dictGet (d : List (String × String)) (k dflt : String) : String :=
  (jsonLookup d k).getD dflt

/-- Python's `k in dict`. -/
def jsonHas (d : List (String × String)) (k : String) : Bool :=
  (jsonLookup d k).isSome

/-! ### File system and the background job -/

/-- A file system: which paths exist. -/
def FS := String → Bool

/-- `os.remove p`. -/
def fsRemove (fs : FS) (p : String) : FS := fun q => if q == p then false else fs q

/-- `if os.path.exists(p): os.remove(p)` — the cleanup idiom at app.py
lines 104-105 and 109-110; it cannot raise, since the removal is guarded. -/
def osRemoveGuarded (fs : FS) (p : String) : FS :=
  if fs p = true then fsRemove fs p else fs

/-- An HTTP response as seen by `requests.post` / `requests.get` callers. -/
structure HttpResp where
  status : Nat
  body : String
deriving DecidableEq

/-- Result of one background-job execution: final file system, the trace of
`requests.post(url, data)` calls, and the exception escaping the job (if any). -/
structure JobResult where
  fs : FS
  posts : List (String × List (String × String))
  exc : Option String

/-- The `try:` block of `process_log_background` (app.py lines 40-105).
Arguments model the behaviour of each fallible step:
`clientR` — `genai.Client(...)`; `readR` — what `open(...).read()` yields when the
file exists (a missing file raises regardless); `classifyR` — the
`generate_content` call, whose `.parsed` is a JSON object or `None`
(on `None`, `result.get` raises, modelled as an error); `postR` — `requests.post`.
Returns the trace of form posts made and either the final file system after the
success-path cleanup (lines 103-105) or the exception raised inside the block. -/
def jobTryBlock (clientR : Except String Unit) (readR : Except String (List Nat))
    (classifyR : Except String (Option (List (String × String))))
    (postR : Except String HttpResp)
    (fs0 : FS) (audio_path timestamp_str date_str : String) :
    List (String × List (String × String)) × Except String FS :=
  match clientR with
  | .error e => ([], .error e)
  | .ok _client =>
    match (if fs0 audio_path = true then readR else Except.error "FileNotFoundError") with
    | .error e => ([], .error e)
    | .ok _audio_bytes =>
      match classifyR with
      | .error e => ([], .error e)
      | .ok none => ([], .error "AttributeError")
      | .ok (some result) =>
        let detected_category := dictGet result "LogType" "General Baby Log"
        let detected_transcript := dictGet result "Recording Transcript" ""
        let form_data := [(FORM_FIELDS.date, date_str), (FORM_FIELDS.time, timestamp_str),
          (FORM_FIELDS.log_type, detected_category),
          (FORM_FIELDS.transcript, detected_transcript)]
        match postR with
        | .error e => ([(GOOGLE_FORM_URL, form_data)], .error e)
        | .ok _resp => ([(GOOGLE_FORM_URL, form_data)], .ok (osRemoveGuarded fs0 audio_path))

/-- The `except Exception` handler (app.py lines 107-110): print the error, then
remove the temp file if it exists. Neither step can raise (the removal is
existence-guarded), so the handler returns no escaping exception. -/
def exceptHandler (fs : FS) (audio_path : String) : FS × Option String :=
  (osRemoveGuarded fs audio_path, none)

/-- `process_log_background(audio_path, timestamp_str, date_str)` (app.py
lines 31-110), as a function of the oracle behaviours of its steps. -/
def process_log_background (clientR : Except String Unit)
    (readR : Except String (List Nat))
    (classifyR : Except String (Option (List (String × String))))
    (postR : Except String HttpResp)
    (fs0 : FS) (audio_path timestamp_str date_str : String) : JobResult :=
  match jobTryBlock clientR readR classifyR postR fs0 audio_path timestamp_str date_str with
  | (posts, .ok fs1) => ⟨fs1, posts, none⟩
  | (posts, .error _e) =>
    ⟨(exceptHandler fs0 audio_path).1, posts, (exceptHandler fs0 audio_path).2⟩

/-- The four oracle behaviours of one background-job run, bundled. -/
structure JobEnv where
  clientResult : Except String Unit
  readResult : Except String (List Nat)
  classifyResult : Except String (Option (List (String × String)))
  postResult : Except String HttpResp

/-! ### Request handlers -/

/-- A `jsonify(...), status` response. -/
structure HandlerResp where
  body : List (String × String)
  status : Nat
deriving DecidableEq

/-- Result of the `/log-button` handler: response plus the trace of relay posts. -/
structure ButtonResult where
  resp : HandlerResp
  posts : List (String × List (String × String))
deriving DecidableEq

/-- `log_button` (app.py lines 128-162). `data` is `request.json` (absent or an
object), `date_str`/`time_str` model `datetime.now().strftime(...)`, and `postR`
the behaviour of the one `requests.post` relay call. -/
def log_button (data : Option (List (String × String))) (date_str time_str : String)
    (postR : Except String HttpResp) : ButtonResult :=
  match data with
  | none => ⟨⟨[("error", "No log type provided")], 400⟩, []⟩
  | some d =>
    if d.isEmpty || !jsonHas d "type" then
      ⟨⟨[("error", "No log type provided")], 400⟩, []⟩
    else
      let log_type := dictGet d "type" ""
      let note := dictGet d "note" ""
      let form_data := [(FORM_FIELDS.date, date_str), (FORM_FIELDS.time, time_str),
        (FORM_FIELDS.log_type, log_type),
        (FORM_FIELDS.transcript, if note = "" then "Manual Button Log" else note)]
      match postR with
      | .ok _resp =>
        ⟨⟨[("status", "success"), ("message", "Logged: " ++ log_type)], 200⟩,
          [(GOOGLE_FORM_URL, form_data)]⟩
      | .error e => ⟨⟨[("error", e)], 500⟩, [(GOOGLE_FORM_URL, form_data)]⟩

/-- A multipart file upload: `request.files['file']`. -/
structure Upload where
  filename : String
  content : List Nat

/-- Result of the `/log-baby` handler: response, file system after the handler
returns, and the `(save_path, time_str, date_str)` argument triples of the
background threads spawned. -/
structure VoiceResult where
  resp : HandlerResp
  fs : FS
  spawned : List (String × String × String)

/-- `log_baby` (app.py lines 164-193). `files` is `request.files.get('file')`,
`nowTs` is `int(now.timestamp())`, `saveR` the behaviour of `file.save(...)`. -/
def log_baby (files : Option Upload) (nowTs : Nat) (date_str time_str : String)
    (fs0 : FS) (saveR : Except String Unit) : VoiceResult :=
  match files with
  | none => ⟨⟨[("error", "No audio file provided")], 400⟩, fs0, []⟩
  | some file =>
    if file.filename = "" then ⟨⟨[("error", "No selected file")], 400⟩, fs0, []⟩
    else
      let save_path := savePathStr nowTs file.filename
      match saveR with
      | .error e => ⟨⟨[("error", e)], 500⟩, fs0, []⟩
      | .ok _ =>
        ⟨⟨[("status", "success"), ("message", "Processing...")], 200⟩,
          fun q => if q = save_path then true else fs0 q,
          [(save_path, time_str, date_str)]⟩

/-- One full voice-submission execution: the synchronous handler followed by the
spawned background job running under oracle behaviour `env`. Returns the HTTP
response (available before the job runs) and the eventual file system and post
trace. -/
def voiceSystem (files : Option Upload) (nowTs : Nat) (date_str time_str : String)
    (fs0 : FS) (saveR : Except String Unit) (env : JobEnv) :
    HandlerResp × FS × List (String × List (String × String)) :=
  let h := log_baby files nowTs date_str time_str fs0 saveR
  match h.spawned with
  | [] => (h.resp, h.fs, [])
  | (p, ts, ds) :: _ =>
    let j := process_log_background env.clientResult env.readResult env.classifyResult
      env.postResult h.fs p ts ds
    (h.resp, j.fs, j.posts)

/-! ### Concrete inputs used by witnesses and counterexamples -/

/-- A file system on which exactly `/tmp/voice.m4a` exists. -/
def tmpExists : FS := fun p => p == "/tmp/voice.m4a"

/-- A classification result whose `LogType` is outside the prompt's taxonomy. -/
def resultC9 : List (String × String) :=
  [("LogType", "Banana"), ("Recording Transcript", "feed")]

/-- A parsed classification result missing the `LogType` field. -/
def resultC2 : List (String × String) := [("Recording Transcript", "hello")]

/-- An all-steps-succeed job environment. -/
def envOkAll : JobEnv :=
  ⟨.ok (), .ok [0], .ok (some [("LogType", "Nappy Change"), ("Recording Transcript", "hi")]),
    .ok ⟨200, "ok"⟩⟩

/-- A job environment in which every remote step fails. -/
def envFailAll : JobEnv :=
  ⟨.ok (), .error "IOError", .error "TransportError", .error "TransportError"⟩

/-! ### Basic lemmas about the background job -/

theorem osRemoveGuarded_self (fs : FS) (p : String) : osRemoveGuarded fs p p = false := by
  unfold osRemoveGuarded fsRemove
  split
  · simp
  · rename_i h
    simpa using h

theorem process_fs_eq (cR : Except String Unit) (rR : Except String (List Nat))
    (clR : Except String (Option (List (String × String)))) (pR : Except String HttpResp)
    (fs0 : FS) (path ts ds : String) :
    (process_log_background cR rR clR pR fs0 path ts ds).fs = osRemoveGuarded fs0 path := by
  unfold process_log_background jobTryBlock exceptHandler
  rcases cR with e | u
  · rfl
  · by_cases hf : fs0 path = true <;> simp only [hf, if_true, if_false]
    · rcases rR with e1 | bs
      · rfl
      · rcases clR with e2 | p
        · rfl
        · rcases p with _ | result
          · rfl
          · rcases pR with e3 | r <;> rfl
    · rfl

theorem process_exc_eq (cR : Except String Unit) (rR : Except String (List Nat))
    (clR : Except String (Option (List (String × String)))) (pR : Except String HttpResp)
    (fs0 : FS) (path ts ds : String) :
    (process_log_background cR rR clR pR fs0 path ts ds).exc = none := by
  unfold process_log_background jobTryBlock exceptHandler
  rcases cR with e | u
  · rfl
  · by_cases hf : fs0 path = true <;> simp only [hf, if_true, if_false]
    · rcases rR with e1 | bs
      · rfl
      · rcases clR with e2 | p
        · rfl
        · rcases p with _ | result
          · rfl
          · rcases pR with e3 | r <;> rfl
    · rfl

theorem process_posts_of_classified (cR : Except String Unit) (rR : Except String (List Nat))
    (clR : Except String (Option (List (String × String)))) (pR : Except String HttpResp)
    (fs0 : FS) (path ts ds : String) (bs : List Nat) (result : List (String × String))
    (hc : cR = Except.ok ()) (hf : fs0 path = true) (hr : rR = Except.ok bs)
    (hcl : clR = Except.ok (some result)) :
    (process_log_background cR rR clR pR fs0 path ts ds).posts =
      [(GOOGLE_FORM_URL,
        [(FORM_FIELDS.date, ds), (FORM_FIELDS.time, ts),
         (FORM_FIELDS.log_type, dictGet result "LogType" "General Baby Log"),
         (FORM_FIELDS.transcript, dictGet result "Recording Transcript" "")])] := by
  subst hc hr hcl
  unfold process_log_background jobTryBlock
  simp only [hf, if_true]
  rcases pR with e3 | r <;> rfl

/-! ### Claim theorems: background job -/

/-- Claim C1: for every execution of `process_log_background` — any behaviour of the
client construction, the file read, the classification call and the form post, and
any initial file system — the temp file at `audio_path` no longer exists when the
job finishes, on the success path as well as on every exception path. -/
theorem c1_temp_file_removed (cR : Except String Unit) (rR : Except String (List Nat))
    (clR : Except String (Option (List (String × String)))) (pR : Except String HttpResp)
    (fs0 : FS) (path ts ds : String) :
    (process_log_background cR rR clR pR fs0 path ts ds).fs path = false := by
  rw [process_fs_eq]
  exact osRemoveGuarded_self fs0 path

/-- Claim C6: whatever the file system and the behaviours of the classification and
relay services, every exception raised inside the job's steps is caught at the job
boundary: `process_log_background` propagates no exception to its caller. -/
theorem c6_no_exception_propagation (cR : Except String Unit) (rR : Except String (List Nat))
    (clR : Except String (Option (List (String × String)))) (pR : Except String HttpResp)
    (fs0 : FS) (path ts ds : String) :
    (process_log_background cR rR clR pR fs0 path ts ds).exc = none := by
  rw [process_exc_eq]

/-- Claim C2, counterexample: a parsed classification result that is missing the
`LogType` field but carries a non-empty `Recording Transcript` is forwarded with
*its own* transcript, not the empty string — the claim's "uses the fallback label
and the empty-string transcript" fails at this input (the fallback is per-field). -/
theorem c2_counterexample :
    jsonLookup resultC2 "LogType" = none ∧
    (process_log_background (Except.ok ()) (Except.ok [0]) (Except.ok (some resultC2))
        (Except.ok ⟨200, "ok"⟩) tmpExists "/tmp/voice.m4a" "10:00" "2026-10-12").posts =
      [(GOOGLE_FORM_URL,
        [(FORM_FIELDS.date, "2026-10-12"), (FORM_FIELDS.time, "10:00"),
         (FORM_FIELDS.log_type, "General Baby Log"), (FORM_FIELDS.transcript, "hello")])] ∧
    ("hello" : String) ≠ "" := by
  refine ⟨rfl, rfl, by decide⟩

/-- Claim C2 (amended): the fallback applies per missing field — when the parsed
result lacks `LogType` the label posted is `"General Baby Log"`, and when it lacks
`Recording Transcript` the transcript posted is `""`; in either case the job still
proceeds to post exactly one form submission built from those values. -/
theorem c2_missing_field_fallback (cR : Except String Unit) (rR : Except String (List Nat))
    (clR : Except String (Option (List (String × String)))) (pR : Except String HttpResp)
    (fs0 : FS) (path ts ds : String) (bs : List Nat) (result : List (String × String))
    (hc : cR = Except.ok ()) (hf : fs0 path = true) (hr : rR = Except.ok bs)
    (hcl : clR = Except.ok (some result)) :
    (process_log_background cR rR clR pR fs0 path ts ds).posts =
      [(GOOGLE_FORM_URL,
        [(FORM_FIELDS.date, ds), (FORM_FIELDS.time, ts),
         (FORM_FIELDS.log_type, dictGet result "LogType" "General Baby Log"),
         (FORM_FIELDS.transcript, dictGet result "Recording Transcript" "")])] ∧
    (jsonLookup result "LogType" = none →
      dictGet result "LogType" "General Baby Log" = "General Baby Log") ∧
    (jsonLookup result "Recording Transcript" = none →
      dictGet result "Recording Transcript" "" = "") := by
  refine ⟨process_posts_of_classified cR rR clR pR fs0 path ts ds bs result hc hf hr hcl,
    fun h => ?_, fun h => ?_⟩
  · rw [dictGet, h]; rfl
  · rw [dictGet, h]; rfl

theorem c2_missing_field_fallback_witness :
    (process_log_background (Except.ok ()) (Except.ok [0]) (Except.ok (some []))
        (Except.ok ⟨200, "ok"⟩) tmpExists "/tmp/voice.m4a" "10:00" "2026-10-12").posts =
      [(GOOGLE_FORM_URL,
        [(FORM_FIELDS.date, "2026-10-12"), (FORM_FIELDS.time, "10:00"),
         (FORM_FIELDS.log_type, "General Baby Log"), (FORM_FIELDS.transcript, "")])] ∧
    dictGet [] "LogType" "General Baby Log" = "General Baby Log" ∧
    dictGet [] "Recording Transcript" "" = "" :=
  ⟨(c2_missing_field_fallback (Except.ok ()) (Except.ok [0]) (Except.ok (some []))
      (Except.ok ⟨200, "ok"⟩) tmpExists "/tmp/voice.m4a" "10:00" "2026-10-12" [0] []
      rfl rfl rfl rfl).1,
   (c2_missing_field_fallback (Except.ok ()) (Except.ok [0]) (Except.ok (some []))
      (Except.ok ⟨200, "ok"⟩) tmpExists "/tmp/voice.m4a" "10:00" "2026-10-12" [0] []
      rfl rfl rfl rfl).2.1 rfl,
   (c2_missing_field_fallback (Except.ok ()) (Except.ok [0]) (Except.ok (some []))
      (Except.ok ⟨200, "ok"⟩) tmpExists "/tmp/voice.m4a" "10:00" "2026-10-12" [0] []
      rfl rfl rfl rfl).2.2 rfl⟩

/-- Claim C8: when the classification succeeds, the job issues exactly one outbound
form-encoded POST, to the configured form URL, whose payload is exactly the four
fixed entry-id keys mapped to the submission's date and time and to the detected
label and transcript; and the relay's response value is never inspected — runs that
differ only in the response returned by `requests.post` (e.g. a non-2xx status)
have identical job results. -/
theorem c8_exactly_one_post (cR : Except String Unit) (rR : Except String (List Nat))
    (clR : Except String (Option (List (String × String))))
    (fs0 : FS) (path ts ds : String) (bs : List Nat) (result : List (String × String))
    (r0 : HttpResp)
    (hc : cR = Except.ok ()) (hf : fs0 path = true) (hr : rR = Except.ok bs)
    (hcl : clR = Except.ok (some result)) :
    (process_log_background cR rR clR (Except.ok r0) fs0 path ts ds).posts =
      [(GOOGLE_FORM_URL,
        [(FORM_FIELDS.date, ds), (FORM_FIELDS.time, ts),
         (FORM_FIELDS.log_type, dictGet result "LogType" "General Baby Log"),
         (FORM_FIELDS.transcript, dictGet result "Recording Transcript" "")])] ∧
    (∀ r1 r2 : HttpResp,
      process_log_background cR rR clR (Except.ok r1) fs0 path ts ds =
        process_log_background cR rR clR (Except.ok r2) fs0 path ts ds) := by
  refine ⟨process_posts_of_classified cR rR clR (Except.ok r0) fs0 path ts ds bs result
    hc hf hr hcl, fun r1 r2 => ?_⟩
  subst hc hr hcl
  unfold process_log_background jobTryBlock
  simp only [hf, if_true]

theorem c8_exactly_one_post_witness :
    (process_log_background (Except.ok ()) (Except.ok [0])
        (Except.ok (some [("LogType", "Nappy Change"), ("Recording Transcript", "hi")]))
        (Except.ok ⟨200, "ok"⟩) tmpExists "/tmp/voice.m4a" "10:00" "2026-10-12").posts =
      [(GOOGLE_FORM_URL,
        [(FORM_FIELDS.date, "2026-10-12"), (FORM_FIELDS.time, "10:00"),
         (FORM_FIELDS.log_type, "Nappy Change"), (FORM_FIELDS.transcript, "hi")])] ∧
    process_log_background (Except.ok ()) (Except.ok [0])
        (Except.ok (some [("LogType", "Nappy Change"), ("Recording Transcript", "hi")]))
        (Except.ok ⟨200, "ok"⟩) tmpExists "/tmp/voice.m4a" "10:00" "2026-10-12" =
      process_log_background (Except.ok ()) (Except.ok [0])
        (Except.ok (some [("LogType", "Nappy Change"), ("Recording Transcript", "hi")]))
        (Except.ok ⟨500, "server error"⟩) tmpExists "/tmp/voice.m4a" "10:00" "2026-10-12" :=
  ⟨(c8_exactly_one_post (Except.ok ()) (Except.ok [0])
      (Except.ok (some [("LogType", "Nappy Change"), ("Recording Transcript", "hi")]))
      tmpExists "/tmp/voice.m4a" "10:00" "2026-10-12" [0]
      [("LogType", "Nappy Change"), ("Recording Transcript", "hi")] ⟨200, "ok"⟩
      rfl rfl rfl rfl).1,
   (c8_exactly_one_post (Except.ok ()) (Except.ok [0])
      (Except.ok (some [("LogType", "Nappy Change"), ("Recording Transcript", "hi")]))
      tmpExists "/tmp/voice.m4a" "10:00" "2026-10-12" [0]
      [("LogType", "Nappy Change"), ("Recording Transcript", "hi")] ⟨200, "ok"⟩
      rfl rfl rfl rfl).2 ⟨200, "ok"⟩ ⟨500, "server error"⟩⟩

/-- Claim C9, counterexample: the code posts the service's `LogType` string
verbatim; at this input the classification service returns `"Banana"` and the value
posted as `log_type` is `"Banana"`, which is not in the prompt's enumerated
taxonomy — the claimed invariant fails on the code. -/
theorem c9_counterexample :
    (process_log_background (Except.ok ()) (Except.ok [0]) (Except.ok (some resultC9))
        (Except.ok ⟨200, "ok"⟩) tmpExists "/tmp/voice.m4a" "10:00" "2026-10-12").posts =
      [(GOOGLE_FORM_URL,
        [(FORM_FIELDS.date, "2026-10-12"), (FORM_FIELDS.time, "10:00"),
         (FORM_FIELDS.log_type, "Banana"), (FORM_FIELDS.transcript, "feed")])] ∧
    ("Banana" ∈ taxonomy → False) := by
  refine ⟨rfl, by decide⟩

/-- Claim C9 (amended): the posted label belongs to the fixed taxonomy provided the
classification service returns a `LogType` in the taxonomy or omits the field (the
code forwards the field verbatim and only substitutes the default when it is
missing; nothing enforces membership against a misbehaving service). -/
theorem c9_label_in_taxonomy (cR : Except String Unit) (rR : Except String (List Nat))
    (clR : Except String (Option (List (String × String)))) (pR : Except String HttpResp)
    (fs0 : FS) (path ts ds : String) (bs : List Nat) (result : List (String × String))
    (hc : cR = Except.ok ()) (hf : fs0 path = true) (hr : rR = Except.ok bs)
    (hcl : clR = Except.ok (some result))
    (hin : ∀ v, jsonLookup result "LogType" = some v → v ∈ taxonomy) :
    dictGet result "LogType" "General Baby Log" ∈ taxonomy ∧
    (process_log_background cR rR clR pR fs0 path ts ds).posts =
      [(GOOGLE_FORM_URL,
        [(FORM_FIELDS.date, ds), (FORM_FIELDS.time, ts),
         (FORM_FIELDS.log_type, dictGet result "LogType" "General Baby Log"),
         (FORM_FIELDS.transcript, dictGet result "Recording Transcript" "")])] := by
  refine ⟨?_, process_posts_of_classified cR rR clR pR fs0 path ts ds bs result hc hf hr hcl⟩
  cases h : jsonLookup result "LogType" with
  | none => rw [dictGet, h]; simp [taxonomy]
  | some v =>
    rw [dictGet, h]
    exact hin v h

theorem c9_label_in_taxonomy_witness :
    dictGet [("LogType", "Nappy Change"), ("Recording Transcript", "hi")]
        "LogType" "General Baby Log" ∈ taxonomy ∧
    (process_log_background (Except.ok ()) (Except.ok [0])
        (Except.ok (some [("LogType", "Nappy Change"), ("Recording Transcript", "hi")]))
        (Except.ok ⟨200, "ok"⟩) tmpExists "/tmp/voice.m4a" "10:00" "2026-10-12").posts =
      [(GOOGLE_FORM_URL,
        [(FORM_FIELDS.date, "2026-10-12"), (FORM_FIELDS.time, "10:00"),
         (FORM_FIELDS.log_type, "Nappy Change"), (FORM_FIELDS.transcript, "hi")])] :=
  c9_label_in_taxonomy (Except.ok ()) (Except.ok [0])
    (Except.ok (some [("LogType", "Nappy Change"), ("Recording Transcript", "hi")]))
    (Except.ok ⟨200, "ok"⟩) tmpExists "/tmp/voice.m4a" "10:00" "2026-10-12" [0]
    [("LogType", "Nappy Change"), ("Recording Transcript", "hi")]
    rfl rfl rfl rfl (by decide)

/-! ### Claim theorems: request handlers -/

/-- Claim C4: for a button submission whose JSON payload binds `"type"` to `t`, the
single relay call's `log_type` form field carries exactly `t`; the `transcript`
field carries the payload's note when a non-empty one is given and the literal
`"Manual Button Log"` when no note is given; and on the path where the relay call
succeeds the handler returns status 200 with a success payload. -/
theorem c4_button_relay_fields (d : List (String × String)) (t ds ts : String) (r : HttpResp)
    (hty : jsonLookup d "type" = some t) :
    (log_button (some d) ds ts (Except.ok r)).resp.status = 200 ∧
    (log_button (some d) ds ts (Except.ok r)).resp.body =
      [("status", "success"), ("message", "Logged: " ++ t)] ∧
    (∀ n, jsonLookup d "note" = some n → n ≠ "" →
      (log_button (some d) ds ts (Except.ok r)).posts =
        [(GOOGLE_FORM_URL,
          [(FORM_FIELDS.date, ds), (FORM_FIELDS.time, ts),
           (FORM_FIELDS.log_type, t), (FORM_FIELDS.transcript, n)])]) ∧
    (jsonLookup d "note" = none →
      (log_button (some d) ds ts (Except.ok r)).posts =
        [(GOOGLE_FORM_URL,
          [(FORM_FIELDS.date, ds), (FORM_FIELDS.time, ts),
           (FORM_FIELDS.log_type, t), (FORM_FIELDS.transcript, "Manual Button Log")])]) := by
  have hne : d.isEmpty = false := by
    cases d with
    | nil => simp [jsonLookup] at hty
    | cons a l => rfl
  have hhas : jsonHas d "type" = true := by rw [jsonHas, hty]; rfl
  have hget : dictGet d "type" "" = t := by rw [dictGet, hty]; rfl
  unfold log_button
  simp only [hne, hhas, hget, Bool.not_true, Bool.or_self, Bool.false_eq_true, if_false]
  refine ⟨trivial, trivial, fun n hn hne' => ?_, fun hn => ?_⟩
  · simp [dictGet, hn, hne']
  · simp [dictGet, hn]

theorem c4_button_relay_fields_witness :
    (log_button (some [("type", "Nappy Change"), ("note", "hi")]) "2026-10-12" "10:00"
      (Except.ok ⟨200, "ok"⟩)).resp.status = 200 ∧
    (log_button (some [("type", "Nappy Change"), ("note", "hi")]) "2026-10-12" "10:00"
      (Except.ok ⟨200, "ok"⟩)).posts =
      [(GOOGLE_FORM_URL,
        [(FORM_FIELDS.date, "2026-10-12"), (FORM_FIELDS.time, "10:00"),
         (FORM_FIELDS.log_type, "Nappy Change"), (FORM_FIELDS.transcript, "hi")])] :=
  ⟨(c4_button_relay_fields [("type", "Nappy Change"), ("note", "hi")] "Nappy Change"
      "2026-10-12" "10:00" ⟨200, "ok"⟩ rfl).1,
   (c4_button_relay_fields [("type", "Nappy Change"), ("note", "hi")] "Nappy Change"
      "2026-10-12" "10:00" ⟨200, "ok"⟩ rfl).2.2.1 "hi" rfl (by decide)⟩

/-- Claim C10: a button payload that explicitly binds `"note"` to the empty string
is relayed with the literal `"Manual Button Log"` as the transcript (the code's
`note or "Manual Button Log"` treats the empty note as falsy), exactly as when the
note key is absent. -/
theorem c10_empty_note_fallback (d : List (String × String)) (t ds ts : String)
    (pR : Except String HttpResp)
    (hty : jsonLookup d "type" = some t) (hnote : jsonLookup d "note" = some "") :
    (log_button (some d) ds ts pR).posts =
      [(GOOGLE_FORM_URL,
        [(FORM_FIELDS.date, ds), (FORM_FIELDS.time, ts),
         (FORM_FIELDS.log_type, t), (FORM_FIELDS.transcript, "Manual Button Log")])] := by
  have hne : d.isEmpty = false := by
    cases d with
    | nil => simp [jsonLookup] at hty
    | cons a l => rfl
  have hhas : jsonHas d "type" = true := by rw [jsonHas, hty]; rfl
  have hget : dictGet d "type" "" = t := by rw [dictGet, hty]; rfl
  have hgn : dictGet d "note" "" = "" := by rw [dictGet, hnote]; rfl
  unfold log_button
  simp only [hne, hhas, hget, hgn, Bool.not_true, Bool.or_self, Bool.false_eq_true, if_false,
    if_pos rfl]
  rcases pR with e | r <;> rfl

theorem c10_empty_note_fallback_witness :
    (log_button (some [("type", "Nappy Change"), ("note", "")]) "2026-10-12" "10:00"
      (Except.ok ⟨200, "ok"⟩)).posts =
      [(GOOGLE_FORM_URL,
        [(FORM_FIELDS.date, "2026-10-12"), (FORM_FIELDS.time, "10:00"),
         (FORM_FIELDS.log_type, "Nappy Change"),
         (FORM_FIELDS.transcript, "Manual Button Log")])] :=
  c10_empty_note_fallback [("type", "Nappy Change"), ("note", "")] "Nappy Change"
    "2026-10-12" "10:00" (Except.ok ⟨200, "ok"⟩) rfl rfl

/-- Claim C5: a voice POST whose files lack a `file` entry, or whose file has an
empty filename, is answered with status 400 and an error payload, spawns no
background job, and leaves the file system unchanged (no temp file is created). -/
theorem c5_voice_missing_file_rejected (files : Option Upload) (nowTs : Nat)
    (ds ts : String) (fs0 : FS) (saveR : Except String Unit)
    (h : files = none ∨ ∃ f, files = some f ∧ f.filename = "") :
    (log_baby files nowTs ds ts fs0 saveR).resp.status = 400 ∧
    (log_baby files nowTs ds ts fs0 saveR).spawned = [] ∧
    (log_baby files nowTs ds ts fs0 saveR).fs = fs0 ∧
    ((log_baby files nowTs ds ts fs0 saveR).resp.body = [("error", "No audio file provided")] ∨
     (log_baby files nowTs ds ts fs0 saveR).resp.body = [("error", "No selected file")]) := by
  rcases h with rfl | ⟨f, rfl, hf⟩
  · exact ⟨rfl, rfl, rfl, Or.inl rfl⟩
  · unfold log_baby
    simp [hf]

theorem c5_voice_missing_file_rejected_witness :
    (log_baby none 1760227200 "2026-10-12" "10:00" tmpExists (Except.ok ())).resp.status = 400 ∧
    (log_baby none 1760227200 "2026-10-12" "10:00" tmpExists (Except.ok ())).spawned = [] ∧
    (log_baby none 1760227200 "2026-10-12" "10:00" tmpExists (Except.ok ())).fs = tmpExists ∧
    ((log_baby none 1760227200 "2026-10-12" "10:00" tmpExists (Except.ok ())).resp.body =
        [("error", "No audio file provided")] ∨
     (log_baby none 1760227200 "2026-10-12" "10:00" tmpExists (Except.ok ())).resp.body =
        [("error", "No selected file")]) :=
  c5_voice_missing_file_rejected none 1760227200 "2026-10-12" "10:00" tmpExists
    (Except.ok ()) (Or.inl rfl)

/-- Claim C7: for a valid voice upload (file present, non-empty filename, save
succeeding) the handler's response is status 200 with the success payload, and the
response is identical across any two runs that differ only in the later behaviour
of the background job's classification and relay steps — the acknowledgment does
not depend on the background job's outcome. -/
theorem c7_ack_independent_of_background (f : Upload) (nowTs : Nat) (ds ts : String)
    (fs0 : FS) (hf : f.filename ≠ "") (env1 env2 : JobEnv) :
    (voiceSystem (some f) nowTs ds ts fs0 (Except.ok ()) env1).1 =
      (voiceSystem (some f) nowTs ds ts fs0 (Except.ok ()) env2).1 ∧
    (voiceSystem (some f) nowTs ds ts fs0 (Except.ok ()) env1).1 =
      ⟨[("status", "success"), ("message", "Processing...")], 200⟩ := by
  unfold voiceSystem log_baby
  simp only [if_neg hf]
  exact ⟨trivial, trivial⟩

theorem c7_ack_independent_of_background_witness :
    (voiceSystem (some ⟨"voice.m4a", [0]⟩) 1760227200 "2026-10-12" "10:00" tmpExists
        (Except.ok ()) envOkAll).1 =
      (voiceSystem (some ⟨"voice.m4a", [0]⟩) 1760227200 "2026-10-12" "10:00" tmpExists
        (Except.ok ()) envFailAll).1 ∧
    (voiceSystem (some ⟨"voice.m4a", [0]⟩) 1760227200 "2026-10-12" "10:00" tmpExists
        (Except.ok ()) envOkAll).1 =
      ⟨[("status", "success"), ("message", "Processing...")], 200⟩ :=
  c7_ack_independent_of_background ⟨"voice.m4a", [0]⟩ 1760227200 "2026-10-12" "10:00"
    tmpExists (by decide) envOkAll envFailAll

/-! ### Lemmas about the sanitization pipeline -/

theorem mySplit_ne_nil (p : Char → Bool) (l : List Char) : mySplit p l ≠ [] := by
  induction l with
  | nil => simp [mySplit]
  | cons c rest ih =>
    unfold mySplit
    split
    · simp
    · cases h : mySplit p rest with
      | nil => exact absurd h ih
      | cons x xs => simp [h, List.modifyHead]

theorem mySplit_cons (p : Char → Bool) (c : Char) (rest : List Char) :
    mySplit p (c :: rest) =
      if p c then [] :: mySplit p rest
      else (mySplit p rest).modifyHead (fun x => c :: x) := rfl

theorem mySplit_append_nonspace (p : Char → Bool) (a l : List Char)
    (h : ∀ c ∈ a, p c = false) :
    mySplit p (a ++ l) = (mySplit p l).modifyHead (fun x => a ++ x) := by
  induction a with
  | nil =>
    simp only [List.nil_append]
    cases hs : mySplit p l with
    | nil => rfl
    | cons x xs => simp [List.modifyHead]
  | cons c a' ih =>
    have hc : p c = false := h c (by simp)
    have ha' : ∀ x ∈ a', p x = false := fun x hx => h x (by simp [hx])
    rw [List.cons_append, mySplit_cons, if_neg (by simp [hc]), ih ha']
    cases hs : mySplit p l with
    | nil => exact absurd hs (mySplit_ne_nil p l)
    | cons x xs => simp [List.modifyHead]

theorem dropWhile_eq_self_of_forall (p : Char → Bool) (l : List Char)
    (h : ∀ c ∈ l, p c = false) : l.dropWhile p = l := by
  cases l with
  | nil => rfl
  | cons c rest =>
    rw [List.dropWhile_cons, if_neg (by simp [h c (by simp)])]

theorem dropWhile_append_split (p : Char → Bool) (v u : List Char) :
    (v ++ u).dropWhile p =
      if (v.dropWhile p).isEmpty then u.dropWhile p else v.dropWhile p ++ u := by
  induction v with
  | nil => simp
  | cons c v' ih =>
    by_cases hc : p c = true
    · simp [List.dropWhile_cons, hc, ih]
    · simp [List.dropWhile_cons, hc]

theorem dropWhile_suffix_exists (p : Char → Bool) (l : List Char) :
    ∃ t, t ++ l.dropWhile p = l := by
  induction l with
  | nil => exact ⟨[], rfl⟩
  | cons c rest ih =>
    by_cases hc : p c = true
    · obtain ⟨t, ht⟩ := ih
      exact ⟨c :: t, by simp [List.dropWhile_cons, hc, ht]⟩
    · exact ⟨[], by simp [List.dropWhile_cons, hc]⟩

theorem rstrip_append (a b : List Char) (ha : ∀ c ∈ a, stripChar c = false) :
    rstrip (a ++ b) = a ++ rstrip b := by
  unfold rstrip
  rw [List.reverse_append, dropWhile_append_split]
  have hra : a.reverse.dropWhile stripChar = a.reverse :=
    dropWhile_eq_self_of_forall stripChar a.reverse
      (fun c hc => ha c (List.mem_reverse.mp hc))
  by_cases he : (b.reverse.dropWhile stripChar).isEmpty = true
  · rw [if_pos he, hra, List.reverse_reverse]
    have hb : b.reverse.dropWhile stripChar = [] := by
      simpa using he
    rw [hb]
    simp
  · rw [if_neg he, List.reverse_append, List.reverse_reverse]

theorem rstrip_cons_shape (c : Char) (l : List Char) :
    rstrip (c :: l) = [] ∨ ∃ zs, rstrip (c :: l) = c :: zs := by
  obtain ⟨t, ht⟩ := dropWhile_suffix_exists stripChar (c :: l).reverse
  have h2 : rstrip (c :: l) ++ t.reverse = c :: l := by
    have h3 := congrArg List.reverse ht
    rw [List.reverse_append, List.reverse_reverse] at h3
    simpa [rstrip] using h3
  cases hr : rstrip (c :: l) with
  | nil => exact Or.inl rfl
  | cons z zs =>
    rw [hr, List.cons_append] at h2
    injection h2 with h4 _h5
    exact Or.inr ⟨zs, by rw [h4]⟩

theorem takeWhile_append_eq (q : Char → Bool) (d z : List Char)
    (hd : ∀ c ∈ d, q c = true) (hz : z = [] ∨ ∃ c zs, z = c :: zs ∧ q c = false) :
    (d ++ z).takeWhile q = d := by
  induction d with
  | nil =>
    rcases hz with rfl | ⟨c, zs, rfl, hc⟩
    · rfl
    · simp [List.takeWhile_cons, hc]
  | cons c d' ih =>
    have hc := hd c (by simp)
    simp only [List.cons_append, List.takeWhile_cons, hc, if_true]
    rw [ih (fun x hx => hd x (by simp [hx]))]

theorem filter_eq_self_of_forall (p : Char → Bool) (l : List Char)
    (h : ∀ c ∈ l, p c = true) : l.filter p = l := by
  induction l with
  | nil => rfl
  | cons c rest ih =>
    simp [List.filter_cons, h c (by simp), ih (fun x hx => h x (by simp [hx]))]

theorem map_eq_self_of_forall (f : Char → Char) (l : List Char)
    (h : ∀ c ∈ l, f c = c) : l.map f = l := by
  induction l with
  | nil => rfl
  | cons c rest ih =>
    simp [h c (by simp), ih (fun x hx => h x (by simp [hx]))]

/-! ### Lemmas about digit characters and the decimal rendering -/

theorem isDigitB_not_space (c : Char) (h : isDigitB c = true) : pyIsSpace c = false := by
  cases hs : pyIsSpace c
  · rfl
  · exfalso
    have h6 : c = ' ' ∨ c = '\t' ∨ c = '\n' ∨ c = '\x0d' ∨ c = '\x0b' ∨ c = '\x0c' := by
      simpa [pyIsSpace, Bool.or_eq_true, beq_iff_eq, or_assoc] using hs
    rcases h6 with rfl | rfl | rfl | rfl | rfl | rfl <;> exact absurd h (by decide)

theorem isDigitB_not_strip (c : Char) (h : isDigitB c = true) : stripChar c = false := by
  cases hs : stripChar c
  · rfl
  · exfalso
    simp only [stripChar, Bool.or_eq_true, beq_iff_eq] at hs
    rcases hs with rfl | rfl <;> exact absurd h (by decide)

theorem isDigitB_slash (c : Char) (h : isDigitB c = true) : slashToSpace c = c := by
  unfold slashToSpace
  cases hq : (c == '/')
  · simp
  · exfalso
    have : c = '/' := by simpa using hq
    subst this
    exact absurd h (by decide)

theorem isDigitB_allowed (c : Char) (h : isDigitB c = true) : allowedChar c = true := by
  simp only [isDigitB, Bool.and_eq_true, decide_eq_true_eq] at h
  simp only [allowedChar, Bool.or_eq_true, Bool.and_eq_true, decide_eq_true_eq]
  tauto

theorem digitChar_isDigitB : ∀ d : Nat, d < 10 → isDigitB (digitChar d) = true := by decide

theorem charToDigit_digitChar : ∀ d : Nat, d < 10 → charToDigit (digitChar d) = d := by decide

theorem natCharsAux_all_digit (fuel : Nat) :
    ∀ n : Nat, ∀ c ∈ natCharsAux fuel n, isDigitB c = true := by
  induction fuel with
  | zero => intro n c hc; simp [natCharsAux] at hc
  | succ f ih =>
    intro n c hc
    by_cases hn : n = 0
    · simp [natCharsAux, hn] at hc
    · rw [natCharsAux, if_neg hn] at hc
      rcases List.mem_append.mp hc with h1 | h2
      · exact ih (n / 10) c h1
      · have hcd : c = digitChar (n % 10) := by simpa using h2
        subst hcd
        exact digitChar_isDigitB (n % 10) (Nat.mod_lt _ (by norm_num))

theorem natChars_all_digit (n : Nat) : ∀ c ∈ natChars n, isDigitB c = true := by
  unfold natChars
  split
  · intro c hc
    have : c = '0' := by simpa using hc
    subst this
    decide
  · exact natCharsAux_all_digit n n

theorem natChars_ne_nil (n : Nat) : natChars n ≠ [] := by
  unfold natChars
  split
  · simp
  · rename_i hn
    cases n with
    | zero => exact absurd rfl hn
    | succ f =>
      rw [natCharsAux, if_neg hn]
      simp

theorem valOf_append_digit (l : List Char) (c : Char) :
    valOf (l ++ [c]) = 10 * valOf l + charToDigit c := by
  unfold valOf
  rw [List.foldl_append]
  rfl

theorem valOf_natCharsAux (n : Nat) :
    ∀ fuel : Nat, n ≤ fuel → valOf (natCharsAux fuel n) = n := by
  induction n using Nat.strong_induction_on with
  | _ n ih =>
    intro fuel hf
    cases fuel with
    | zero =>
      have hn0 : n = 0 := Nat.le_zero.mp hf
      simp [natCharsAux, valOf, hn0]
    | succ f =>
      by_cases hn : n = 0
      · simp [natCharsAux, hn, valOf]
      · rw [natCharsAux, if_neg hn, valOf_append_digit]
        have hlt : n / 10 < n := Nat.div_lt_self (Nat.pos_of_ne_zero hn) (by norm_num)
        have hle : n / 10 ≤ f := by omega
        rw [ih (n / 10) hlt f hle,
          charToDigit_digitChar (n % 10) (Nat.mod_lt _ (by norm_num))]
        omega

theorem valOf_natChars (n : Nat) : valOf (natChars n) = n := by
  unfold natChars
  split
  · rename_i h
    subst h
    decide
  · exact valOf_natCharsAux n n le_rfl

theorem natChars_injective {a b : Nat} (h : natChars a = natChars b) : a = b := by
  have ha := valOf_natChars a
  rw [h, valOf_natChars b] at ha
  exact ha.symm

/-! ### The digit-prefix structure of a sanitized timestamped name -/

theorem secure_filename_timestamp_shape (t : Nat) (n : List Char) :
    ∃ z, secure_filename (natChars t ++ '_' :: n) = natChars t ++ z ∧
      (z = [] ∨ ∃ zs, z = '_' :: zs) := by
  have hdig : ∀ c ∈ natChars t, isDigitB c = true := natChars_all_digit t
  have hdne : natChars t ≠ [] := natChars_ne_nil t
  -- step 1: `replace("/", " ")` leaves the digits and the separator alone
  have h1 : (natChars t ++ '_' :: n).map slashToSpace =
      natChars t ++ '_' :: n.map slashToSpace := by
    rw [List.map_append,
      map_eq_self_of_forall _ _ (fun c hc => isDigitB_slash c (hdig c hc))]
    rfl
  set n' := n.map slashToSpace with hn'
  -- step 2: splitting: the first piece starts with the digits and the separator
  have h2 : mySplit pyIsSpace (natChars t ++ '_' :: n') =
      (mySplit pyIsSpace n').modifyHead (fun x => natChars t ++ '_' :: x) := by
    have hassoc : natChars t ++ '_' :: n' = (natChars t ++ ['_']) ++ n' := by simp
    rw [hassoc, mySplit_append_nonspace]
    · cases hs : mySplit pyIsSpace n' with
      | nil => rfl
      | cons x xs => simp [List.modifyHead]
    · intro c hc
      rcases List.mem_append.mp hc with h | h
      · exact isDigitB_not_space c (hdig c h)
      · have : c = '_' := by simpa using h
        subst this
        decide
  obtain ⟨hh, tl, hsp⟩ : ∃ hh tl, mySplit pyIsSpace n' = hh :: tl := by
    cases hs : mySplit pyIsSpace n' with
    | nil => exact absurd hs (mySplit_ne_nil _ _)
    | cons x xs => exact ⟨x, xs, rfl⟩
  -- step 3: the first piece is non-empty so it survives the empty-piece filter
  have h4 : filterNonEmpty (mySplit pyIsSpace (natChars t ++ '_' :: n')) =
      (natChars t ++ '_' :: hh) :: filterNonEmpty tl := by
    rw [h2, hsp]
    have hne : (natChars t ++ '_' :: hh).isEmpty = false := by
      cases natChars t <;> rfl
    simp [List.modifyHead, filterNonEmpty, List.filter_cons, hne]
  -- step 4: rejoining keeps the digits and the separator as a prefix
  have h5 : ∃ r, joinUnderscore ((natChars t ++ '_' :: hh) :: filterNonEmpty tl) =
      natChars t ++ '_' :: (hh ++ r) := by
    cases hft : filterNonEmpty tl with
    | nil => exact ⟨[], by simp [joinUnderscore]⟩
    | cons y ys => exact ⟨'_' :: joinUnderscore (y :: ys), by simp [joinUnderscore]⟩
  obtain ⟨r, h5⟩ := h5
  -- step 5: the character filter keeps digits and underscores
  have h6 : List.filter allowedChar (natChars t ++ '_' :: (hh ++ r)) =
      natChars t ++ '_' :: List.filter allowedChar (hh ++ r) := by
    rw [List.filter_append,
      filter_eq_self_of_forall allowedChar (natChars t)
        (fun c hc => isDigitB_allowed c (hdig c hc)),
      List.filter_cons, if_pos (by decide : allowedChar '_' = true)]
  set w := List.filter allowedChar (hh ++ r) with hw
  -- step 6: the left strip stops at the first digit
  have h7 : lstrip (natChars t ++ '_' :: w) = natChars t ++ '_' :: w := by
    obtain ⟨c0, d0, hd0⟩ : ∃ c0 d0, natChars t = c0 :: d0 := by
      cases hd : natChars t with
      | nil => exact absurd hd hdne
      | cons a b => exact ⟨a, b, rfl⟩
    have hc0 : stripChar c0 = false :=
      isDigitB_not_strip c0 (hdig c0 (by rw [hd0]; simp))
    rw [hd0, List.cons_append, lstrip, List.dropWhile_cons, if_neg (by simp [hc0])]
  -- step 7: the right strip removes nothing from the digits
  have h8 : rstrip (natChars t ++ '_' :: w) = natChars t ++ rstrip ('_' :: w) :=
    rstrip_append (natChars t) ('_' :: w)
      (fun c hc => isDigitB_not_strip c (hdig c hc))
  refine ⟨rstrip ('_' :: w), ?_, ?_⟩
  · unfold secure_filename
    rw [h1, h4, h5, h6, h7, h8]
  · rcases rstrip_cons_shape '_' w with h | ⟨zs, h⟩
    · exact Or.inl h
    · exact Or.inr ⟨zs, h⟩

theorem takeWhile_secure_filename (t : Nat) (n : List Char) :
    (secure_filename (natChars t ++ '_' :: n)).takeWhile isDigitB = natChars t := by
  obtain ⟨z, hz, hshape⟩ := secure_filename_timestamp_shape t n
  rw [hz]
  apply takeWhile_append_eq
  · exact natChars_all_digit t
  · rcases hshape with rfl | ⟨zs, rfl⟩
    · exact Or.inl rfl
    · exact Or.inr ⟨'_', zs, rfl, by decide⟩

/-! ### Claim theorems: temp-path collisions -/

/-- Claim C3, counterexample: two voice submissions arriving at the same timestamp
with the distinct original filenames `"a b.m4a"` and `"a_b.m4a"` are mapped by the
handler's sanitization to the *same* temp path — `secure_filename` collapses a
space to an underscore, so the timestamp+filename composite key does not separate
all distinct filenames. -/
theorem c3_counterexample :
    savePathStr 100 "a b.m4a" = savePathStr 100 "a_b.m4a" ∧
    ("a b.m4a" : String) ≠ "a_b.m4a" := by
  refine ⟨by decide, by decide⟩

/-- Claim C3 (amended): the save-path mapping never sends two submissions with
distinct *timestamps* to the same path (whatever their filenames); at equal
timestamps distinct filenames may collide, as the counterexample shows. -/
theorem c3_distinct_timestamps (t1 t2 : Nat) (n1 n2 : String) (h : t1 ≠ t2) :
    savePathStr t1 n1 ≠ savePathStr t2 n2 := by
  intro he
  have hl : savePath t1 n1.toList = savePath t2 n2.toList := congrArg String.data he
  unfold savePath at hl
  have h2 : secure_filename (natChars t1 ++ '_' :: n1.toList) =
      secure_filename (natChars t2 ++ '_' :: n2.toList) :=
    List.append_cancel_left hl
  have h3 := congrArg (List.takeWhile isDigitB) h2
  rw [takeWhile_secure_filename, takeWhile_secure_filename] at h3
  exact h (natChars_injective h3)

theorem c3_distinct_timestamps_witness :
    (1 : Nat) ≠ 2 ∧ savePathStr 1 "a.m4a" ≠ savePathStr 2 "a.m4a" :=
  ⟨by decide, c3_distinct_timestamps 1 2 "a.m4a" "a.m4a" (by decide)⟩

end BabyLog
